import Mathlib

/-!
Shallow embedding of `src/utility/errormessage.cpp` of pc-nrfjprog-js:
the error-message formatting utility of the nrfjprog scripting binding.

The file under verification defines two static lookup tables
(`nrfjprog_js_err_map`, `nrfjprogdll_err_t_map`) and the three operations
`ErrorMessage::getErrorMessage`, `ErrorMessage::getTypeErrorMessage` and
`ErrorMessage::getStructErrorMessage`.  C++ `int` values are modelled as
`Int` (with reduction modulo 2^32 where the code formats them through the
32-bit two's-complement view that `std::hex` exposes), C++ strings as
`String`, and the v8 value universe as a small inductive type.
-/

/-- A JavaScript value as far as this file produces them: numbers and
strings attached as properties of an error object. -/
inductive JsValue where
  | num : Int → JsValue
  | str : String → JsValue

/-- The v8 `Error` object produced by `Nan::Error`: its `message` string,
plus the named properties subsequently attached with `Utility::Set`. -/
structure JsError where
  message : String
  fields : List (String × JsValue)

/-- Modelled from the spec: `name_map_t` (declared in `conversion.h`, which is
not part of the source slice) is the type of the static lookup tables, a
"static mapping from integer code to display name string". -/
abbrev name_map_t : Type := List (Int × String)

/-! Modelled from the spec: the binding-level error-code enumeration
`errorcodes` (declared in a header that is not part of the source slice).
The spec fixes only that zero denotes success, so `JsSuccess = 0`; the
remaining enumerators carry no spec-mandated values and are modelled as the
successive integers in declaration order. -/

namespace errorcodes

def JsSuccess : Int := 0

def CouldNotFindJlinkDLL : Int := 1

def CouldNotFindJprogDLL : Int := 2

def CouldNotLoadDLL : Int := 3

def CouldNotOpenDLL : Int := 4

def CouldNotOpenDevice : Int := 5

def CouldNotResetDevice : Int := 6

def CouldNotCloseDevice : Int := 7

def CouldNotConnectToDevice : Int := 8

def CouldNotCallFunction : Int := 9

def CouldNotErase : Int := 10

def CouldNotProgram : Int := 11

def CouldNotRead : Int := 12

def CouldNotOpenHexFile : Int := 13

def WrongMagicNumber : Int := 14

end errorcodes

/-- Modelled from the spec: the vendor-level error-code enumeration
`nrfjprogdll_err_t` (declared in the vendor SDK header, which is not part of
the source slice).  The spec fixes only that zero denotes success, so
`SUCCESS = 0`; the remaining enumerators carry no spec-mandated values and
are modelled as the successive nonzero integers in declaration order. -/
def SUCCESS : Int := 0

def OUT_OF_MEMORY : Int := 1

def INVALID_OPERATION : Int := 2

def INVALID_PARAMETER : Int := 3

def INVALID_DEVICE_FOR_OPERATION : Int := 4

def WRONG_FAMILY_FOR_DEVICE : Int := 5

def EMULATOR_NOT_CONNECTED : Int := 6

def CANNOT_CONNECT : Int := 7

def LOW_VOLTAGE : Int := 8

def NO_EMULATOR_CONNECTED : Int := 9

def FAMILY_UNKNOWN : Int := 10

def NVMC_ERROR : Int := 11

def RECOVER_FAILED : Int := 12

def RAM_IS_OFF_ERROR : Int := 13

def QspiIniNotFoundError : Int := 14

def QspiIniCannotBeOpenedError : Int := 15

def QspiSyntaxError : Int := 16

def QspiIniParsingError : Int := 17

def NOT_AVAILABLE_BECAUSE_PROTECTION : Int := 18

def NOT_AVAILABLE_BECAUSE_MPU_CONFIG : Int := 19

def JLINKARM_DLL_NOT_FOUND : Int := 20

def JLINKARM_DLL_COULD_NOT_BE_OPENED : Int := 21

def JLINKARM_DLL_ERROR : Int := 22

def JLINKARM_DLL_TOO_OLD : Int := 23

def NRFJPROG_SUB_DLL_NOT_FOUND : Int := 24

def NRFJPROG_SUB_DLL_COULD_NOT_BE_OPENED : Int := 25

def NRFJPROG_SUB_DLL_COULD_NOT_LOAD_FUNCTIONS : Int := 26

def NOT_IMPLEMENTED_ERROR : Int := 27

/-- The static table `nrfjprog_js_err_map` (errormessage.cpp lines 45-61):
binding-level code to display name. -/
def nrfjprog_js_err_map : name_map_t := [
  (errorcodes.JsSuccess, "Success"),
  (errorcodes.CouldNotFindJlinkDLL, "CouldNotFindJlinkDLL"),
  (errorcodes.CouldNotFindJprogDLL, "CouldNotFindJprogDLL"),
  (errorcodes.CouldNotLoadDLL, "CouldNotLoadDLL"),
  (errorcodes.CouldNotOpenDLL, "CouldNotOpenDLL"),
  (errorcodes.CouldNotOpenDevice, "CouldNotOpenDevice"),
  (errorcodes.CouldNotResetDevice, "CouldNotResetDevice"),
  (errorcodes.CouldNotCloseDevice, "CouldNotCloseDevice"),
  (errorcodes.CouldNotConnectToDevice, "CouldNotConnectToDevice"),
  (errorcodes.CouldNotCallFunction, "CouldNotCallFunction"),
  (errorcodes.CouldNotErase, "CouldNotErase"),
  (errorcodes.CouldNotProgram, "CouldNotProgram"),
  (errorcodes.CouldNotRead, "CouldNotRead"),
  (errorcodes.CouldNotOpenHexFile, "CouldNotOpenHexFile"),
  (errorcodes.WrongMagicNumber, "WrongMagicNumber")
]

/-- The static table `nrfjprogdll_err_t_map` (errormessage.cpp lines 63-92):
vendor-level code to display name; `NAME_MAP_ENTRY(X)` expands to
`{ X, "X" }`. -/
def nrfjprogdll_err_t_map : name_map_t := [
  (SUCCESS, "SUCCESS"),
  (OUT_OF_MEMORY, "OUT_OF_MEMORY"),
  (INVALID_OPERATION, "INVALID_OPERATION"),
  (INVALID_PARAMETER, "INVALID_PARAMETER"),
  (INVALID_DEVICE_FOR_OPERATION, "INVALID_DEVICE_FOR_OPERATION"),
  (WRONG_FAMILY_FOR_DEVICE, "WRONG_FAMILY_FOR_DEVICE"),
  (EMULATOR_NOT_CONNECTED, "EMULATOR_NOT_CONNECTED"),
  (CANNOT_CONNECT, "CANNOT_CONNECT"),
  (LOW_VOLTAGE, "LOW_VOLTAGE"),
  (NO_EMULATOR_CONNECTED, "NO_EMULATOR_CONNECTED"),
  (FAMILY_UNKNOWN, "FAMILY_UNKNOWN"),
  (NVMC_ERROR, "NVMC_ERROR"),
  (RECOVER_FAILED, "RECOVER_FAILED"),
  (RAM_IS_OFF_ERROR, "RAM_IS_OFF_ERROR"),
  (QspiIniNotFoundError, "QspiIniNotFoundError"),
  (QspiIniCannotBeOpenedError, "QspiIniCannotBeOpenedError"),
  (QspiSyntaxError, "QspiSyntaxError"),
  (QspiIniParsingError, "QspiIniParsingError"),
  (NOT_AVAILABLE_BECAUSE_PROTECTION, "NOT_AVAILABLE_BECAUSE_PROTECTION"),
  (NOT_AVAILABLE_BECAUSE_MPU_CONFIG, "NOT_AVAILABLE_BECAUSE_MPU_CONFIG"),
  (JLINKARM_DLL_NOT_FOUND, "JLINKARM_DLL_NOT_FOUND"),
  (JLINKARM_DLL_COULD_NOT_BE_OPENED, "JLINKARM_DLL_COULD_NOT_BE_OPENED"),
  (JLINKARM_DLL_ERROR, "JLINKARM_DLL_ERROR"),
  (JLINKARM_DLL_TOO_OLD, "JLINKARM_DLL_TOO_OLD"),
  (NRFJPROG_SUB_DLL_NOT_FOUND, "NRFJPROG_SUB_DLL_NOT_FOUND"),
  (NRFJPROG_SUB_DLL_COULD_NOT_BE_OPENED, "NRFJPROG_SUB_DLL_COULD_NOT_BE_OPENED"),
  (NRFJPROG_SUB_DLL_COULD_NOT_LOAD_FUNCTIONS, "NRFJPROG_SUB_DLL_COULD_NOT_LOAD_FUNCTIONS"),
  (NOT_IMPLEMENTED_ERROR, "NOT_IMPLEMENTED_ERROR")
]

/-- Modelled from the spec: `Convert::valueToString` (defined in
`conversion.cpp`, which is not part of the source slice) looks a code up in
a name map; per the spec, "unknown codes fall back to a literal `Unknown`
name rather than failing". -/
def Convert.valueToString (value : Int) (name_map : name_map_t) : String :=
  match List.lookup value name_map with
  | some s => s
  | none => "Unknown"

/-- The rendering `std::ostream` gives an `int` under `std::hex` (lowercase
digits, no prefix): the value is converted to the corresponding 32-bit
unsigned integer and printed in base 16. -/
def hexStr (n : Int) : String :=
  String.mk (Nat.toDigits 16 (n % (2 ^ 32)).toNat)

/-- The first stream insertion of `getErrorMessage` (errormessage.cpp lines
106-107): operation description, binding error name, and the binding code in
hex (`std::hex` is applied just before `errorCode`); `std::endl` is a
newline. -/
def errorLine (errorCode : Int) (customMessage : String) : String :=
  "Error occured when " ++ customMessage ++ ". " ++ "Errorcode: " ++
    Convert.valueToString errorCode nrfjprog_js_err_map ++ " (0x" ++ hexStr errorCode ++ ")" ++ "\n"

/-- The vendor-error stream insertion (errormessage.cpp line 111).  The
`std::hex` manipulator from line 107 is sticky on the stream, so
`lowlevelError` is also rendered in base 16 (without the `0x` prefix that
line 107 writes explicitly). -/
def lowlevelLine (lowlevelError : Int) : String :=
  "Lowlevel error: " ++ Convert.valueToString lowlevelError nrfjprogdll_err_t_map ++
    " (" ++ hexStr lowlevelError ++ ")" ++ "\n"

/-- The full contents of `errorStringStream` after lines 105-117: the error
line, then the vendor line only when `lowlevelError != SUCCESS`, then the
log message only when it is non-empty. -/
def composeMessage (errorCode : Int) (customMessage : String) (logmessage : String)
    (lowlevelError : Int) : String :=
  errorLine errorCode customMessage
    ++ (if lowlevelError ≠ SUCCESS then lowlevelLine lowlevelError else "")
    ++ (if logmessage ≠ "" then logmessage ++ "\n" else "")

/-- `ErrorMessage::getErrorMessage` (errormessage.cpp lines 94-133).  The
`case errorcodes::JsSuccess` branch returns `Nan::Undefined()`, modelled as
`none`; the default branch builds the message and the error object.  The
seven `Utility::Set` property writes (lines 122-128, `Utility::Set` itself
lives in `utility.h` outside the source slice) on the freshly created error
object are modelled as the property list in call order. -/
def getErrorMessage (errorCode : Int) (customMessage : String) (logmessage : String)
    (lowlevelError : Int) : Option JsError :=
  if errorCode = errorcodes.JsSuccess then
    none
  else
    let errorString := composeMessage errorCode customMessage logmessage lowlevelError
    some {
      message := errorString
      fields := [
        ("errno", JsValue.num errorCode),
        ("errcode", JsValue.str (Convert.valueToString errorCode nrfjprog_js_err_map)),
        ("erroperation", JsValue.str customMessage),
        ("errmsg", JsValue.str errorString),
        ("lowlevelErrorNo", JsValue.num lowlevelError),
        ("lowlevelError", JsValue.str (Convert.valueToString lowlevelError nrfjprogdll_err_t_map)),
        ("output", JsValue.str logmessage)
      ] }

/-- `ErrorMessage::getTypeErrorMessage` (errormessage.cpp lines 135-170):
the `switch` on `argumentNumber` selects the ordinal word, `default` giving
`"Unknown"`, and the fixed tail is appended. -/
def getTypeErrorMessage (argumentNumber : Int) (message : String) : String :=
  (if argumentNumber = 0 then "First"
   else if argumentNumber = 1 then "Second"
   else if argumentNumber = 2 then "Third"
   else if argumentNumber = 3 then "Fourth"
   else if argumentNumber = 4 then "Fifth"
   else if argumentNumber = 5 then "Sixth"
   else if argumentNumber = 6 then "Seventh"
   else "Unknown") ++ " argument must be a " ++ message

/-- `ErrorMessage::getStructErrorMessage` (errormessage.cpp lines
172-179). -/
def getStructErrorMessage (name : String) (message : String) : String :=
  "Property: " ++ name ++ " Message: " ++ message

/-- The process-static state the three operations can see: the two lookup
tables (the only statics in the translation unit). -/
structure StaticTables where
  js_map : name_map_t
  dll_map : name_map_t

/-- The static tables as initialized at process start (lines 45-92). -/
def initialTables : StaticTables :=
  { js_map := nrfjprog_js_err_map, dll_map := nrfjprogdll_err_t_map }

/-- `getErrorMessage` with the static lookup tables passed explicitly, the
way the body reads them (through `Convert::valueToString`). -/
def getErrorMessageWith (js_map dll_map : name_map_t) (errorCode : Int)
    (customMessage : String) (logmessage : String) (lowlevelError : Int) : Option JsError :=
  if errorCode = errorcodes.JsSuccess then
    none
  else
    let errorString :=
      "Error occured when " ++ customMessage ++ ". " ++ "Errorcode: " ++
          Convert.valueToString errorCode js_map ++ " (0x" ++ hexStr errorCode ++ ")" ++ "\n"
        ++ (if lowlevelError ≠ SUCCESS then
              "Lowlevel error: " ++ Convert.valueToString lowlevelError dll_map ++
                " (" ++ hexStr lowlevelError ++ ")" ++ "\n"
            else "")
        ++ (if logmessage ≠ "" then logmessage ++ "\n" else "")
    some {
      message := errorString
      fields := [
        ("errno", JsValue.num errorCode),
        ("errcode", JsValue.str (Convert.valueToString errorCode js_map)),
        ("erroperation", JsValue.str customMessage),
        ("errmsg", JsValue.str errorString),
        ("lowlevelErrorNo", JsValue.num lowlevelError),
        ("lowlevelError", JsValue.str (Convert.valueToString lowlevelError dll_map)),
        ("output", JsValue.str logmessage)
      ] }

/-- State-passing translation of `ErrorMessage::getErrorMessage`: the body
reads the two static tables and contains no assignment to them, so the
returned state is the incoming state. -/
def getErrorMessageSt (st : StaticTables) (errorCode : Int) (customMessage : String)
    (logmessage : String) (lowlevelError : Int) : Option JsError × StaticTables :=
  (getErrorMessageWith st.js_map st.dll_map errorCode customMessage logmessage lowlevelError, st)

/-- State-passing translation of `ErrorMessage::getTypeErrorMessage`: the
body mentions no static at all, so the state passes through unchanged. -/
def getTypeErrorMessageSt (st : StaticTables) (argumentNumber : Int) (message : String) :
    String × StaticTables :=
  (getTypeErrorMessage argumentNumber message, st)

/-- State-passing translation of `ErrorMessage::getStructErrorMessage`: the
body mentions no static at all, so the state passes through unchanged. -/
def getStructErrorMessageSt (st : StaticTables) (name : String) (message : String) :
    String × StaticTables :=
  (getStructErrorMessage name message, st)

/-- `pat` occurs as a contiguous substring of `s`. -/
def occursIn (pat s : String) : Prop :=
  pat.toList <:+: s.toList

instance (pat s : String) : Decidable (occursIn pat s) := by
  unfold occursIn
  exact List.decidableInfix pat.toList s.toList

theorem string_toList_append (a b : String) : (a ++ b).toList = a.toList ++ b.toList := by
  simp [String.toList]

theorem occursIn_of_split (p a b s : String) (h : s = a ++ p ++ b) : occursIn p s := by
  subst h
  unfold occursIn
  rw [string_toList_append, string_toList_append]
  exact ⟨a.toList, b.toList, rfl⟩

/-- Claim C1: for every operation description, log text and vendor code
(including non-zero ones), `getErrorMessage` at the binding success code
`JsSuccess` returns the absent value (`Undefined`, modelled `none`), never
an error object. -/
theorem getErrorMessage_success_undefined (customMessage logmessage : String)
    (lowlevelError : Int) :
    getErrorMessage errorcodes.JsSuccess customMessage logmessage lowlevelError = none := by
  unfold getErrorMessage
  simp

/-- Claim C7: `getStructErrorMessage` returns exactly
`"Property: <name> Message: <message>"`; in particular at `"foo"`/`"bar"` it
returns `"Property: foo Message: bar"`. -/
theorem getStructErrorMessage_format (name message : String) :
    getStructErrorMessage name message = "Property: " ++ name ++ " Message: " ++ message ∧
    getStructErrorMessage "foo" "bar" = "Property: foo Message: bar" := by
  exact ⟨rfl, rfl⟩

theorem occursIn_self (p : String) : occursIn p p :=
  ⟨[], [], by simp⟩

theorem occursIn_appendL (p s t : String) (h : occursIn p s) : occursIn p (s ++ t) := by
  unfold occursIn at h ⊢
  rw [string_toList_append]
  obtain ⟨a, b, hab⟩ := h
  exact ⟨a, b ++ t.toList, by rw [← hab]; simp⟩

theorem occursIn_appendR (p s t : String) (h : occursIn p t) : occursIn p (s ++ t) := by
  unfold occursIn at h ⊢
  rw [string_toList_append]
  obtain ⟨a, b, hab⟩ := h
  exact ⟨s.toList ++ a, b, by rw [← hab]; simp⟩

theorem getErrorMessage_eq_some (errorCode : Int) (customMessage logmessage : String)
    (lowlevelError : Int) (h : ¬ errorCode = errorcodes.JsSuccess) :
    getErrorMessage errorCode customMessage logmessage lowlevelError = some {
      message := composeMessage errorCode customMessage logmessage lowlevelError
      fields := [
        ("errno", JsValue.num errorCode),
        ("errcode", JsValue.str (Convert.valueToString errorCode nrfjprog_js_err_map)),
        ("erroperation", JsValue.str customMessage),
        ("errmsg", JsValue.str (composeMessage errorCode customMessage logmessage lowlevelError)),
        ("lowlevelErrorNo", JsValue.num lowlevelError),
        ("lowlevelError", JsValue.str (Convert.valueToString lowlevelError nrfjprogdll_err_t_map)),
        ("output", JsValue.str logmessage)
      ] } := by
  unfold getErrorMessage
  rw [if_neg h]

theorem errorLine_contains (errorCode : Int) (customMessage : String) :
    occursIn customMessage (errorLine errorCode customMessage) ∧
    occursIn (Convert.valueToString errorCode nrfjprog_js_err_map)
      (errorLine errorCode customMessage) ∧
    occursIn ("0x" ++ hexStr errorCode) (errorLine errorCode customMessage) := by
  unfold errorLine
  refine ⟨?_, ?_, ?_⟩
  · exact occursIn_appendL _ _ _ (occursIn_appendL _ _ _ (occursIn_appendL _ _ _
      (occursIn_appendL _ _ _ (occursIn_appendL _ _ _ (occursIn_appendL _ _ _
        (occursIn_appendL _ _ _ (occursIn_appendR _ _ _ (occursIn_self _))))))))
  · exact occursIn_appendL _ _ _ (occursIn_appendL _ _ _ (occursIn_appendL _ _ _
      (occursIn_appendL _ _ _ (occursIn_appendR _ _ _ (occursIn_self _)))))
  · apply occursIn_appendL
    apply occursIn_appendL
    have h0x : (" (0x" : String) = " (" ++ "0x" := by decide
    rw [h0x, ← String.append_assoc _ " (" "0x", String.append_assoc _ "0x" (hexStr errorCode)]
    exact occursIn_appendR _ _ _ (occursIn_self _)

theorem composeMessage_contains (errorCode : Int) (customMessage logmessage : String)
    (lowlevelError : Int) :
    occursIn customMessage (composeMessage errorCode customMessage logmessage lowlevelError) ∧
    occursIn (Convert.valueToString errorCode nrfjprog_js_err_map)
      (composeMessage errorCode customMessage logmessage lowlevelError) ∧
    occursIn ("0x" ++ hexStr errorCode)
      (composeMessage errorCode customMessage logmessage lowlevelError) := by
  unfold composeMessage
  exact ⟨occursIn_appendL _ _ _ (occursIn_appendL _ _ _ (errorLine_contains _ _).1),
    occursIn_appendL _ _ _ (occursIn_appendL _ _ _ (errorLine_contains _ _).2.1),
    occursIn_appendL _ _ _ (occursIn_appendL _ _ _ (errorLine_contains _ _).2.2)⟩

theorem append_ne_empty_left (a b : String) (ha : a ≠ "") : a ++ b ≠ "" := by
  intro h
  apply ha
  have hd := congrArg String.data h
  rw [String.data_append] at hd
  exact String.ext (List.append_eq_nil.mp hd).1

theorem composeMessage_ne_empty (errorCode : Int) (customMessage logmessage : String)
    (lowlevelError : Int) :
    composeMessage errorCode customMessage logmessage lowlevelError ≠ "" := by
  unfold composeMessage errorLine
  exact append_ne_empty_left _ _ (append_ne_empty_left _ _ (append_ne_empty_left _ _
    (append_ne_empty_left _ _ (append_ne_empty_left _ _ (append_ne_empty_left _ _
      (append_ne_empty_left _ _ (append_ne_empty_left _ _ (append_ne_empty_left _ _
        (append_ne_empty_left _ _ (by decide))))))))))

theorem occursIn_char_absent (p s : String) (c : Char) (hc : c ∈ p.toList)
    (hs : ¬ c ∈ s.toList) : ¬ occursIn p s := by
  intro hocc
  unfold occursIn at hocc
  obtain ⟨a, b, hab⟩ := hocc
  apply hs
  rw [← hab]
  simp only [List.mem_append]
  exact Or.inl (Or.inr hc)

theorem not_mem_of_elem_false (c : Char) (l : List Char) (h : List.elem c l = false) :
    ¬ c ∈ l := by
  intro hm
  rw [List.elem_eq_true_of_mem hm] at h
  cases h

theorem not_mem_toList_append (c : Char) (a b : String) (ha : ¬ c ∈ a.toList)
    (hb : ¬ c ∈ b.toList) : ¬ c ∈ (a ++ b).toList := by
  rw [string_toList_append]
  intro hm
  rcases List.mem_append.mp hm with h | h
  · exact ha h
  · exact hb h

/-- Claim C2 counterexample: at the non-success binding code
`CouldNotErase` the message is the single error line, which renders the code
only in hexadecimal (the name lookup gives `CouldNotErase` and `hexStr`
gives `a`, so the line ends in `(0xa)`); the decimal rendering `10` does not
occur anywhere in that line (no character `1` occurs in it), so the message
does not carry the numeric value "in both decimal and hexadecimal". -/
theorem getErrorMessage_hex_only_counterexample :
    (getErrorMessage errorcodes.CouldNotErase "erasing" "" SUCCESS).map JsError.message =
      some (errorLine errorcodes.CouldNotErase "erasing") ∧
    Convert.valueToString errorcodes.CouldNotErase nrfjprog_js_err_map = "CouldNotErase" ∧
    hexStr errorcodes.CouldNotErase = "a" ∧
    ¬ occursIn "10" (errorLine errorcodes.CouldNotErase "erasing") := by
  have hv : Convert.valueToString errorcodes.CouldNotErase nrfjprog_js_err_map
      = "CouldNotErase" := by rfl
  have hx : hexStr errorcodes.CouldNotErase = "a" := by rfl
  refine ⟨?_, hv, hx, ?_⟩
  · rw [getErrorMessage_eq_some errorcodes.CouldNotErase "erasing" "" SUCCESS (by decide)]
    show some (composeMessage errorcodes.CouldNotErase "erasing" "" SUCCESS) = _
    unfold composeMessage
    simp
  · apply occursIn_char_absent "10" _ '1' (by decide)
    unfold errorLine
    exact not_mem_toList_append _ _ _
      (not_mem_toList_append _ _ _
        (not_mem_toList_append _ _ _
          (not_mem_toList_append _ _ _
            (not_mem_toList_append _ _ _
              (not_mem_toList_append _ _ _
                (not_mem_toList_append _ _ _
                  (not_mem_toList_append _ _ _
                    (not_mem_of_elem_false _ _ (by rfl))
                    (not_mem_of_elem_false _ _ (by rfl)))
                  (not_mem_of_elem_false _ _ (by rfl)))
                (not_mem_of_elem_false _ _ (by rfl)))
              (not_mem_of_elem_false _ _ (by rfl)))
            (not_mem_of_elem_false _ _ (by rfl)))
          (not_mem_of_elem_false _ _ (by rfl)))
        (not_mem_of_elem_false _ _ (by rfl)))
      (not_mem_of_elem_false _ _ (by rfl))

/-- Claim C2 (amended): for every non-success binding error code,
`getErrorMessage` produces a non-empty composite error value whose message
contains the operation description and the binding error name together with
the binding error's numeric value rendered in hexadecimal (with the `0x`
prefix); the decimal rendering is not part of the format. -/
theorem getErrorMessage_message_parts (errorCode : Int) (customMessage logmessage : String)
    (lowlevelError : Int) (h : errorCode ≠ errorcodes.JsSuccess) :
    ∃ e, getErrorMessage errorCode customMessage logmessage lowlevelError = some e ∧
      e.message ≠ "" ∧
      occursIn customMessage e.message ∧
      occursIn (Convert.valueToString errorCode nrfjprog_js_err_map) e.message ∧
      occursIn ("0x" ++ hexStr errorCode) e.message := by
  refine ⟨_, getErrorMessage_eq_some errorCode customMessage logmessage lowlevelError h, ?_, ?_, ?_, ?_⟩
  · exact composeMessage_ne_empty errorCode customMessage logmessage lowlevelError
  · exact (composeMessage_contains errorCode customMessage logmessage lowlevelError).1
  · exact (composeMessage_contains errorCode customMessage logmessage lowlevelError).2.1
  · exact (composeMessage_contains errorCode customMessage logmessage lowlevelError).2.2

theorem getErrorMessage_message_parts_witness :
    (errorcodes.CouldNotOpenDevice ≠ errorcodes.JsSuccess) ∧
    (∃ e, getErrorMessage errorcodes.CouldNotOpenDevice "opening device" "the log" OUT_OF_MEMORY =
        some e ∧
      e.message ≠ "" ∧
      occursIn "opening device" e.message ∧
      occursIn (Convert.valueToString errorcodes.CouldNotOpenDevice nrfjprog_js_err_map) e.message ∧
      occursIn ("0x" ++ hexStr errorcodes.CouldNotOpenDevice) e.message) :=
  ⟨by decide,
    getErrorMessage_message_parts errorcodes.CouldNotOpenDevice "opening device" "the log"
      OUT_OF_MEMORY (by decide)⟩

/-- Claim C3: for every non-success binding error code, when the vendor code
is `SUCCESS` (0) and the log text is empty, the composed message is exactly
the error line — it contains the operation description and the binding error
name and hex number, and both the vendor section and the log section are
omitted. -/
theorem getErrorMessage_vendor_success_empty_log (errorCode : Int) (customMessage : String)
    (h : errorCode ≠ errorcodes.JsSuccess) :
    ∃ e, getErrorMessage errorCode customMessage "" SUCCESS = some e ∧
      e.message = errorLine errorCode customMessage ∧
      occursIn customMessage e.message ∧
      occursIn (Convert.valueToString errorCode nrfjprog_js_err_map) e.message ∧
      occursIn ("0x" ++ hexStr errorCode) e.message := by
  refine ⟨_, getErrorMessage_eq_some errorCode customMessage "" SUCCESS h, ?_, ?_, ?_, ?_⟩
  · show composeMessage errorCode customMessage "" SUCCESS = errorLine errorCode customMessage
    unfold composeMessage
    simp
  · exact (composeMessage_contains errorCode customMessage "" SUCCESS).1
  · exact (composeMessage_contains errorCode customMessage "" SUCCESS).2.1
  · exact (composeMessage_contains errorCode customMessage "" SUCCESS).2.2

theorem getErrorMessage_vendor_success_empty_log_witness :
    (errorcodes.CouldNotRead ≠ errorcodes.JsSuccess) ∧
    (∃ e, getErrorMessage errorcodes.CouldNotRead "reading memory" "" SUCCESS = some e ∧
      e.message = errorLine errorcodes.CouldNotRead "reading memory" ∧
      occursIn "reading memory" e.message ∧
      occursIn (Convert.valueToString errorcodes.CouldNotRead nrfjprog_js_err_map) e.message ∧
      occursIn ("0x" ++ hexStr errorcodes.CouldNotRead) e.message) :=
  ⟨by decide, getErrorMessage_vendor_success_empty_log errorcodes.CouldNotRead "reading memory"
    (by decide)⟩

theorem lowlevelLine_contains (lowlevelError : Int) :
    occursIn (Convert.valueToString lowlevelError nrfjprogdll_err_t_map)
      (lowlevelLine lowlevelError) ∧
    occursIn (hexStr lowlevelError) (lowlevelLine lowlevelError) := by
  unfold lowlevelLine
  constructor
  · exact occursIn_appendL _ _ _ (occursIn_appendL _ _ _ (occursIn_appendL _ _ _
      (occursIn_appendL _ _ _ (occursIn_appendR _ _ _ (occursIn_self _)))))
  · exact occursIn_appendL _ _ _ (occursIn_appendL _ _ _ (occursIn_appendR _ _ _
      (occursIn_self _)))

/-- Claim C4: for every non-success binding code with a non-zero vendor
code, the composed message additionally contains the vendor error name and
the rendering of its numeric value (in base 16, since the `std::hex`
manipulator from the error line is sticky on the stream); and the message
ends with the log text exactly when the log text is non-empty. -/
theorem getErrorMessage_nonzero_vendor (errorCode : Int) (customMessage logmessage : String)
    (lowlevelError : Int) (h : errorCode ≠ errorcodes.JsSuccess)
    (hll : lowlevelError ≠ SUCCESS) :
    ∃ e, getErrorMessage errorCode customMessage logmessage lowlevelError = some e ∧
      occursIn (Convert.valueToString lowlevelError nrfjprogdll_err_t_map) e.message ∧
      occursIn (hexStr lowlevelError) e.message ∧
      (e.message = errorLine errorCode customMessage ++ lowlevelLine lowlevelError ++
          logmessage ++ "\n" ↔ logmessage ≠ "") := by
  refine ⟨_, getErrorMessage_eq_some errorCode customMessage logmessage lowlevelError h,
    ?_, ?_, ?_⟩
  · show occursIn _ (composeMessage errorCode customMessage logmessage lowlevelError)
    unfold composeMessage
    rw [if_pos hll]
    exact occursIn_appendL _ _ _ (occursIn_appendR _ _ _ (lowlevelLine_contains lowlevelError).1)
  · show occursIn _ (composeMessage errorCode customMessage logmessage lowlevelError)
    unfold composeMessage
    rw [if_pos hll]
    exact occursIn_appendL _ _ _ (occursIn_appendR _ _ _ (lowlevelLine_contains lowlevelError).2)
  · show composeMessage errorCode customMessage logmessage lowlevelError = _ ↔ _
    unfold composeMessage
    rw [if_pos hll]
    constructor
    · intro heq hempty
      rw [hempty] at heq
      simp only [ne_eq, not_true_eq_false, if_false, String.append_empty] at heq
      have hlen := congrArg String.length heq
      simp only [String.length_append] at hlen
      have h1 : ("\n" : String).length = 1 := rfl
      rw [h1] at hlen
      omega
    · intro hne
      rw [if_pos hne]
      simp [String.append_assoc]

theorem getErrorMessage_nonzero_vendor_witness :
    (errorcodes.CouldNotProgram ≠ errorcodes.JsSuccess) ∧ (NVMC_ERROR ≠ SUCCESS) ∧
    (∃ e, getErrorMessage errorcodes.CouldNotProgram "programming the device" "flash log"
        NVMC_ERROR = some e ∧
      occursIn (Convert.valueToString NVMC_ERROR nrfjprogdll_err_t_map) e.message ∧
      occursIn (hexStr NVMC_ERROR) e.message ∧
      (e.message = errorLine errorcodes.CouldNotProgram "programming the device" ++
          lowlevelLine NVMC_ERROR ++ "flash log" ++ "\n" ↔ ("flash log" : String) ≠ "")) :=
  ⟨by decide, by decide,
    getErrorMessage_nonzero_vendor errorcodes.CouldNotProgram "programming the device"
      "flash log" NVMC_ERROR (by decide) (by decide)⟩

/-- Claim C5: a binding or vendor code with no entry in its lookup table
still yields a successfully built error object, and the displayed name for
the unknown code (both in the `errcode`/`lowlevelError` fields and in the
composed message via those same lookups) is the sentinel `"Unknown"`. -/
theorem getErrorMessage_unknown_sentinel (errorCode : Int) (customMessage logmessage : String)
    (lowlevelError : Int) (h : errorCode ≠ errorcodes.JsSuccess) :
    ∃ e, getErrorMessage errorCode customMessage logmessage lowlevelError = some e ∧
      (List.lookup errorCode nrfjprog_js_err_map = none →
        List.lookup "errcode" e.fields = some (JsValue.str "Unknown") ∧
        occursIn "Unknown" e.message) ∧
      (List.lookup lowlevelError nrfjprogdll_err_t_map = none →
        List.lookup "lowlevelError" e.fields = some (JsValue.str "Unknown")) := by
  refine ⟨_, getErrorMessage_eq_some errorCode customMessage logmessage lowlevelError h,
    ?_, ?_⟩
  · intro hnone
    have hval : Convert.valueToString errorCode nrfjprog_js_err_map = "Unknown" := by
      unfold Convert.valueToString
      rw [hnone]
    constructor
    · show List.lookup "errcode" [
        ("errno", JsValue.num errorCode),
        ("errcode", JsValue.str (Convert.valueToString errorCode nrfjprog_js_err_map)),
        ("erroperation", JsValue.str customMessage),
        ("errmsg", JsValue.str (composeMessage errorCode customMessage logmessage lowlevelError)),
        ("lowlevelErrorNo", JsValue.num lowlevelError),
        ("lowlevelError", JsValue.str (Convert.valueToString lowlevelError nrfjprogdll_err_t_map)),
        ("output", JsValue.str logmessage)] = some (JsValue.str "Unknown")
      rw [hval]
      rfl
    · show occursIn "Unknown" (composeMessage errorCode customMessage logmessage lowlevelError)
      have := (composeMessage_contains errorCode customMessage logmessage lowlevelError).2.1
      rw [hval] at this
      exact this
  · intro hnone
    have hval : Convert.valueToString lowlevelError nrfjprogdll_err_t_map = "Unknown" := by
      unfold Convert.valueToString
      rw [hnone]
    show List.lookup "lowlevelError" [
      ("errno", JsValue.num errorCode),
      ("errcode", JsValue.str (Convert.valueToString errorCode nrfjprog_js_err_map)),
      ("erroperation", JsValue.str customMessage),
      ("errmsg", JsValue.str (composeMessage errorCode customMessage logmessage lowlevelError)),
      ("lowlevelErrorNo", JsValue.num lowlevelError),
      ("lowlevelError", JsValue.str (Convert.valueToString lowlevelError nrfjprogdll_err_t_map)),
      ("output", JsValue.str logmessage)] = some (JsValue.str "Unknown")
    rw [hval]
    rfl

theorem getErrorMessage_unknown_sentinel_witness :
    ((1000 : Int) ≠ errorcodes.JsSuccess) ∧
    (∃ e, getErrorMessage 1000 "calling the vendor library" "" 2000 = some e ∧
      (List.lookup (1000 : Int) nrfjprog_js_err_map = none →
        List.lookup "errcode" e.fields = some (JsValue.str "Unknown") ∧
        occursIn "Unknown" e.message) ∧
      (List.lookup (2000 : Int) nrfjprogdll_err_t_map = none →
        List.lookup "lowlevelError" e.fields = some (JsValue.str "Unknown"))) :=
  ⟨by decide,
    getErrorMessage_unknown_sentinel 1000 "calling the vendor library" "" 2000 (by decide)⟩

/-- Claim C6: `getTypeErrorMessage n s` is `"<Ordinal> argument must be a
<s>"`, with ordinal `"First"` for `n = 0` through `"Seventh"` for `n = 6`,
and `"Unknown"` for every other index, including 7 and above and negative
indices. -/
theorem getTypeErrorMessage_ordinals (argumentNumber : Int) (message : String) :
    (argumentNumber = 0 →
      getTypeErrorMessage argumentNumber message = "First argument must be a " ++ message) ∧
    (argumentNumber = 1 →
      getTypeErrorMessage argumentNumber message = "Second argument must be a " ++ message) ∧
    (argumentNumber = 2 →
      getTypeErrorMessage argumentNumber message = "Third argument must be a " ++ message) ∧
    (argumentNumber = 3 →
      getTypeErrorMessage argumentNumber message = "Fourth argument must be a " ++ message) ∧
    (argumentNumber = 4 →
      getTypeErrorMessage argumentNumber message = "Fifth argument must be a " ++ message) ∧
    (argumentNumber = 5 →
      getTypeErrorMessage argumentNumber message = "Sixth argument must be a " ++ message) ∧
    (argumentNumber = 6 →
      getTypeErrorMessage argumentNumber message = "Seventh argument must be a " ++ message) ∧
    (¬ (0 ≤ argumentNumber ∧ argumentNumber ≤ 6) →
      getTypeErrorMessage argumentNumber message = "Unknown argument must be a " ++ message) := by
  refine ⟨?_, ?_, ?_, ?_, ?_, ?_, ?_, ?_⟩
  all_goals intro h
  case refine_8 =>
    have h0 : argumentNumber ≠ 0 := by omega
    have h1 : argumentNumber ≠ 1 := by omega
    have h2 : argumentNumber ≠ 2 := by omega
    have h3 : argumentNumber ≠ 3 := by omega
    have h4 : argumentNumber ≠ 4 := by omega
    have h5 : argumentNumber ≠ 5 := by omega
    have h6 : argumentNumber ≠ 6 := by omega
    unfold getTypeErrorMessage
    rw [if_neg h0, if_neg h1, if_neg h2, if_neg h3, if_neg h4, if_neg h5, if_neg h6]
    rfl
  all_goals subst h; rfl

theorem getTypeErrorMessage_ordinals_witness :
    ((7 : Int) = 7) ∧ (¬ ((0 : Int) ≤ 7 ∧ (7 : Int) ≤ 6)) ∧
    getTypeErrorMessage 7 "number" = "Unknown argument must be a number" :=
  ⟨rfl, by decide, (getTypeErrorMessage_ordinals 7 "number").2.2.2.2.2.2.2 (by decide)⟩

/-- Claim C8: for every non-success binding code, the returned error object
carries exactly the seven properties `errno`, `errcode`, `erroperation`,
`errmsg`, `lowlevelErrorNo`, `lowlevelError` and `output`, in the order the
`Utility::Set` calls attach them, holding the binding code, the binding
display name, the operation description, the composed message, the vendor
code, the vendor display name and the log text. -/
theorem getErrorMessage_seven_fields (errorCode : Int) (customMessage logmessage : String)
    (lowlevelError : Int) (h : errorCode ≠ errorcodes.JsSuccess) :
    ∃ e, getErrorMessage errorCode customMessage logmessage lowlevelError = some e ∧
      e.fields = [
        ("errno", JsValue.num errorCode),
        ("errcode", JsValue.str (Convert.valueToString errorCode nrfjprog_js_err_map)),
        ("erroperation", JsValue.str customMessage),
        ("errmsg", JsValue.str (composeMessage errorCode customMessage logmessage lowlevelError)),
        ("lowlevelErrorNo", JsValue.num lowlevelError),
        ("lowlevelError", JsValue.str (Convert.valueToString lowlevelError nrfjprogdll_err_t_map)),
        ("output", JsValue.str logmessage)] ∧
      e.fields.map Prod.fst =
        ["errno", "errcode", "erroperation", "errmsg", "lowlevelErrorNo", "lowlevelError",
          "output"] :=
  ⟨_, getErrorMessage_eq_some errorCode customMessage logmessage lowlevelError h, rfl, rfl⟩

theorem getErrorMessage_seven_fields_witness :
    (errorcodes.WrongMagicNumber ≠ errorcodes.JsSuccess) ∧
    (∃ e, getErrorMessage errorcodes.WrongMagicNumber "checking the magic number" "dump"
        LOW_VOLTAGE = some e ∧
      e.fields = [
        ("errno", JsValue.num errorcodes.WrongMagicNumber),
        ("errcode", JsValue.str (Convert.valueToString errorcodes.WrongMagicNumber
          nrfjprog_js_err_map)),
        ("erroperation", JsValue.str "checking the magic number"),
        ("errmsg", JsValue.str (composeMessage errorcodes.WrongMagicNumber
          "checking the magic number" "dump" LOW_VOLTAGE)),
        ("lowlevelErrorNo", JsValue.num LOW_VOLTAGE),
        ("lowlevelError", JsValue.str (Convert.valueToString LOW_VOLTAGE nrfjprogdll_err_t_map)),
        ("output", JsValue.str "dump")] ∧
      e.fields.map Prod.fst =
        ["errno", "errcode", "erroperation", "errmsg", "lowlevelErrorNo", "lowlevelError",
          "output"]) :=
  ⟨by decide,
    getErrorMessage_seven_fields errorcodes.WrongMagicNumber "checking the magic number" "dump"
      LOW_VOLTAGE (by decide)⟩

/-- Claim C9: the three operations are deterministic pure functions of their
arguments: in the explicit-state translation each call leaves the static
lookup tables (the only shared state) unchanged, two calls on equal states
and equal arguments produce equal values, and `getErrorMessage` is exactly
the state-passing run on the initial tables. -/
theorem errorMessage_operations_pure (st st' : StaticTables)
    (errorCode lowlevelError argumentNumber : Int)
    (customMessage logmessage typeDesc propName propMessage : String)
    (hst : st = st') :
    (getErrorMessageSt st errorCode customMessage logmessage lowlevelError).2 = st ∧
    (getTypeErrorMessageSt st argumentNumber typeDesc).2 = st ∧
    (getStructErrorMessageSt st propName propMessage).2 = st ∧
    (getErrorMessageSt st errorCode customMessage logmessage lowlevelError).1 =
      (getErrorMessageSt st' errorCode customMessage logmessage lowlevelError).1 ∧
    (getTypeErrorMessageSt st argumentNumber typeDesc).1 =
      (getTypeErrorMessageSt st' argumentNumber typeDesc).1 ∧
    (getStructErrorMessageSt st propName propMessage).1 =
      (getStructErrorMessageSt st' propName propMessage).1 ∧
    (getErrorMessageSt initialTables errorCode customMessage logmessage lowlevelError).1 =
      getErrorMessage errorCode customMessage logmessage lowlevelError := by
  subst hst
  refine ⟨rfl, rfl, rfl, rfl, rfl, rfl, ?_⟩
  show getErrorMessageWith nrfjprog_js_err_map nrfjprogdll_err_t_map errorCode customMessage
    logmessage lowlevelError = getErrorMessage errorCode customMessage logmessage lowlevelError
  unfold getErrorMessageWith getErrorMessage composeMessage errorLine lowlevelLine
  rfl

theorem errorMessage_operations_pure_witness :
    (initialTables = initialTables) ∧
    ((getErrorMessageSt initialTables 3 "loading the DLL" "out" 2).2 = initialTables ∧
     (getTypeErrorMessageSt initialTables 1 "string").2 = initialTables ∧
     (getStructErrorMessageSt initialTables "address" "must be an integer").2 = initialTables ∧
     (getErrorMessageSt initialTables 3 "loading the DLL" "out" 2).1 =
       (getErrorMessageSt initialTables 3 "loading the DLL" "out" 2).1 ∧
     (getTypeErrorMessageSt initialTables 1 "string").1 =
       (getTypeErrorMessageSt initialTables 1 "string").1 ∧
     (getStructErrorMessageSt initialTables "address" "must be an integer").1 =
       (getStructErrorMessageSt initialTables "address" "must be an integer").1 ∧
     (getErrorMessageSt initialTables 3 "loading the DLL" "out" 2).1 =
       getErrorMessage 3 "loading the DLL" "out" 2) :=
  ⟨rfl, errorMessage_operations_pure initialTables initialTables 3 2 1 "loading the DLL" "out"
    "string" "address" "must be an integer" rfl⟩

/-- Claim C10: for every non-success binding code, the `errmsg` property of
the returned error object is exactly the message string of the error value
itself: both come from the single composed message text. -/
theorem getErrorMessage_errmsg_agrees (errorCode : Int) (customMessage logmessage : String)
    (lowlevelError : Int) (h : errorCode ≠ errorcodes.JsSuccess) :
    ∃ e, getErrorMessage errorCode customMessage logmessage lowlevelError = some e ∧
      List.lookup "errmsg" e.fields = some (JsValue.str e.message) :=
  ⟨_, getErrorMessage_eq_some errorCode customMessage logmessage lowlevelError h, rfl⟩

theorem getErrorMessage_errmsg_agrees_witness :
    (errorcodes.CouldNotOpenHexFile ≠ errorcodes.JsSuccess) ∧
    (∃ e, getErrorMessage errorcodes.CouldNotOpenHexFile "opening the hex file" "" SUCCESS =
        some e ∧
      List.lookup "errmsg" e.fields = some (JsValue.str e.message)) :=
  ⟨by decide,
    getErrorMessage_errmsg_agrees errorcodes.CouldNotOpenHexFile "opening the hex file" ""
      SUCCESS (by decide)⟩
